import Mathlib

/-!
Verification of `torchtune/modules/peft/pissa.py`: a shallow embedding of
`PiSSALinear` and `QATPiSSALinear` over exact rational arithmetic, with the
external numeric primitives (SVD, quantization codec, fake quantizers,
dropout realizations) passed as opaque function parameters.

Tensors are modelled as total functions on natural-number indices; every
operation carries its dimension explicitly and reads only indices below it,
which matches torch slicing in the regimes the layer is used in.
-/

/-- Column vectors indexed by naturals; entries at or beyond a tensor's
length are bookkeeping only and are never read by a dimension-annotated
operation. -/
abbrev Vec := ℕ → ℚ

/-- Matrices indexed by naturals, row first. -/
abbrev Mat := ℕ → ℕ → ℚ

/-- Matrix-vector product with inner dimension `n`: the bias-free part of
`F.linear(x, A)`. -/
def mulVec (n : ℕ) (A : Mat) (x : Vec) : Vec :=
  fun i => ∑ j ∈ Finset.range n, A i j * x j

/-- Matrix-matrix product with inner dimension `k` (the `@` operator). -/
def matMul (k : ℕ) (A B : Mat) : Mat :=
  fun i j => ∑ l ∈ Finset.range k, A i l * B l j

/-- Model of `torch.diag s`: the square matrix with `s` on the diagonal. -/
def diagMat (s : Vec) : Mat := fun i j => if i = j then s i else 0

/-- Model of `M.t()`. -/
def transpose (M : Mat) : Mat := fun i j => M j i

/-- The parameter state of a `PiSSALinear` module (also the base-class state
of a `QATPiSSALinear`).  The `*_meta` flags record whether the corresponding
tensor is still on the meta (placeholder) device. -/
structure PiSSALinear where
  in_dim : ℕ
  out_dim : ℕ
  rank : ℕ
  alpha : ℚ
  use_bias : Bool
  _quantize_base : Bool
  weight : Mat
  bias : Option Vec
  pissa_u : Mat
  pissa_s : Vec
  pissa_v : Mat
  disabled : Bool
  weight_meta : Bool
  u_meta : Bool
  s_meta : Bool
  v_meta : Bool

/-- The state `PiSSALinear.__init__` builds once its checks pass (the checks
are modelled separately by `PiSSALinear.constructCheck`).  `linW`/`linB`
stand for the random `nn.Linear` initialization of the base weight and bias,
`to_nf4` for the opaque quantization codec applied when `quantize_base` is
set, and `uInit`/`vInit` for the Kaiming-uniform draws that
`initialize_parameters` writes into `pissa_u`/`pissa_v`.  `pissa_s` is
`torch.zeros(rank)` and is zeroed again by `_pissa_s_init_params`; `disabled`
and `merged` start false, and a plainly constructed module is on a real
device. -/
def PiSSALinear.construct (in_dim out_dim rank : ℕ) (alpha : ℚ)
    (use_bias quantize_base : Bool) (to_nf4 : Mat → Mat)
    (linW : Mat) (linB : Vec) (uInit vInit : Mat) : PiSSALinear :=
  { in_dim := in_dim
    out_dim := out_dim
    rank := rank
    alpha := alpha
    use_bias := use_bias
    _quantize_base := quantize_base
    weight := if quantize_base then to_nf4 linW else linW
    bias := if use_bias then some linB else none
    pissa_u := uInit
    pissa_s := fun _ => 0
    pissa_v := vInit
    disabled := false
    weight_meta := false
    u_meta := false
    s_meta := false
    v_meta := false }

/-- The base-transform part of `PiSSALinear.forward` (the local `out` of the
source, lines 182-187): the quantized matmul `linear_nf4` plus bias when
`_quantize_base` is set, else `F.linear(x, weight, bias)`; a `None` bias
contributes zero. -/
def PiSSALinear.baseOut (linear_nf4 : Vec → Mat → Vec) (L : PiSSALinear)
    (x : Vec) : Vec :=
  if L._quantize_base then
    let o := linear_nf4 x L.weight
    if L.use_bias then fun i => o i + (L.bias.getD (fun _ => 0)) i else o
  else
    fun i => mulVec L.in_dim L.weight x i + (L.bias.getD (fun _ => 0)) i

/-- Model of `PiSSALinear.forward` (source lines 173-193).  `linear_nf4` is
the opaque quantized-matmul primitive and `dropoutF` one realization of
`self.dropout` (the identity when the probability is 0). -/
def PiSSALinear.forward (linear_nf4 : Vec → Mat → Vec) (dropoutF : Vec → Vec)
    (L : PiSSALinear) (x : Vec) : Vec :=
  let out := L.baseOut linear_nf4 x
  if L.disabled then out
  else
    let lora1 := mulVec L.in_dim L.pissa_u (dropoutF x)
    let lora2 : Vec := fun i => lora1 i * L.pissa_s i * (L.alpha / (L.rank : ℚ))
    let lora3 := mulVec L.rank L.pissa_v lora2
    fun i => out i + lora3 i

/-- Model of `QATPiSSALinear.forward` (source lines 294-311): `aq`/`wq` are
the activation/weight fake quantizers (`nn.Identity` when the corresponding
config is `None`); the base output is `F.linear(aq x, wq weight)` with no
bias, and the adapter branch is identical to the parent's and reads the raw
`x`. -/
def QATPiSSALinear.forward (aq : Vec → Vec) (wq : Mat → Mat)
    (dropoutF : Vec → Vec) (L : PiSSALinear) (x : Vec) : Vec :=
  let out := mulVec L.in_dim (wq L.weight) (aq x)
  if L.disabled then out
  else
    let lora1 := mulVec L.in_dim L.pissa_u (dropoutF x)
    let lora2 : Vec := fun i => lora1 i * L.pissa_s i * (L.alpha / (L.rank : ℚ))
    let lora3 := mulVec L.rank L.pissa_v lora2
    fun i => out i + lora3 i

/-- Model of `PiSSALinear.initialize_pissa` (source lines 115-159).  `svd`
stands for `torch.linalg.svd(., full_matrices=False)` returning `(V, S, Uh)`
and `svd_lowrank n` for `torch.svd_lowrank(., rank, niter=n)` returning
`(Vr, Sr, Ur)`; both are opaque library primitives.  Over ℚ the float32
upcast and final dtype round-trip are identities.  The `[:rank]` slices are
implicit in the unbounded-index representation: the products below read only
indices under `rank`, matching the intended regime `rank ≤ min(out_dim,
in_dim)`.  As in the source, the singular values are divided in place by
`alpha / rank` before both the parameter writes and the residual
subtraction. -/
def PiSSALinear.initialize_pissa (svd : Mat → Mat × Vec × Mat)
    (svd_lowrank : ℤ → Mat → Mat × Vec × Mat) (fsvd_niter : Option ℤ)
    (L : PiSSALinear) : Except String PiSSALinear :=
  if L.weight_meta || L.u_meta || L.s_meta || L.v_meta then
    .error "Cannot initialize PiSSA if base or LoRA parameters are still on meta device."
  else
    let step : Mat → Vec → Mat → Except String PiSSALinear := fun Vr Sr0 Uhr =>
      let Sr : Vec := fun i => Sr0 i / (L.alpha / (L.rank : ℚ))
      let residual : Mat := fun i j =>
        L.weight i j - matMul L.rank Vr (matMul L.rank (diagMat Sr) Uhr) i j
      .ok { L with pissa_u := Uhr, pissa_s := Sr, pissa_v := Vr, weight := residual }
    match fsvd_niter with
    | some n =>
        if 0 ≤ n then
          let r := svd_lowrank n L.weight
          step r.1 r.2.1 (transpose r.2.2)
        else
          .error "Fast SVD niter is a non-negative integer. It is recommended to set it equal to the rank."
    | none =>
        let r := svd L.weight
        step r.1 r.2.1 r.2.2

/-- Running `initialize_pissa` as a Python method call: when it raises, the
module object is left exactly as it was (the meta-device check precedes
every write). -/
def PiSSALinear.initialize_pissa_run (svd : Mat → Mat × Vec × Mat)
    (svd_lowrank : ℤ → Mat → Mat × Vec × Mat) (fsvd_niter : Option ℤ)
    (L : PiSSALinear) : PiSSALinear :=
  match L.initialize_pissa svd svd_lowrank fsvd_niter with
  | .ok L2 => L2
  | .error _ => L

/-- The error behaviour of `PiSSALinear.__init__` (source lines 49-95), with
the checks in source order: the explicit quantization-kwargs check (line 68);
`nn.Linear(in_dim, out_dim)` (line 74), whose tensor allocation rejects a
negative dimension while zero-sized dimensions are accepted (torch
initializers no-op on zero-element tensors); `nn.Dropout(p=dropout)`, built
only when `dropout > 0` and rejecting `p < 0 ∨ p > 1` (line 90); and
`nn.Linear(in_dim, rank)`, `torch.zeros(rank)`, `nn.Linear(rank, out_dim)`
(lines 91-93), which at this point can only fail on a negative `rank`.
`qkwargs` lists the truthiness of each supplied quantization keyword value.
`alpha` and `use_bias` trigger no check at all. -/
def PiSSALinear.constructCheck (in_dim out_dim rank : ℤ) (alpha dropout : ℚ)
    (use_bias quantize_base : Bool) (qkwargs : List Bool) :
    Except String Unit :=
  if !quantize_base && qkwargs.any id then
    .error "quantize_base is False, but received quantization arguments"
  else if in_dim < 0 ∨ out_dim < 0 then
    .error "Trying to create tensor with negative dimension"
  else if dropout > 0 ∧ (dropout < 0 ∨ dropout > 1) then
    .error "dropout probability has to be between 0 and 1"
  else if rank < 0 then
    .error "Trying to create tensor with negative dimension"
  else
    .ok ()

/-- The error behaviour of `QATPiSSALinear.__init__` (source lines 243-292):
the parent constructor runs with `use_bias=False`, `quantize_base=False` and
no quantization kwargs, then the weight-config group-size check of lines
282-289 runs.  `weight_group_size` is `none` when `weight_qat_config` is
`None`, `some none` for a config without a group size, and `some (some g)`
for a config with group size `g` (positive under the torchao config
contract, which the divisibility test below assumes).  The activation config
triggers no check. -/
def QATPiSSALinear.constructCheck (in_dim out_dim rank : ℤ)
    (alpha dropout : ℚ) (weight_group_size : Option (Option ℤ)) :
    Except String Unit :=
  match PiSSALinear.constructCheck in_dim out_dim rank alpha dropout false false [] with
  | .error e => .error e
  | .ok _ =>
      match weight_group_size with
      | some (some g) =>
          if in_dim % g ≠ 0 then
            .error "in_dim must be divisible by group_size"
          else .ok ()
      | _ => .ok ()

/-- Model of `QATPiSSALinear.from_lora_linear` (source lines 313-352).  The
two `ValueError(...)` expressions on lines 326-329 are evaluated without
`raise`, so no bias or `_quantize_base` check takes effect and the function
always returns a constructed instance.  The dropout probability read on
lines 330-333 only configures the new dropout module, which this state does
not store.  `freshW`, `freshB`, `freshU`, `freshV` stand for the fresh
random initialization performed by `cls(...)`; the source tensors replace
them exactly when the source tensor is not on the meta device, and
`pissa_s` is never copied. -/
def QATPiSSALinear.from_lora_linear (lora_linear : PiSSALinear)
    (to_nf4 : Mat → Mat) (freshW : Mat) (freshB : Vec)
    (freshU freshV : Mat) : PiSSALinear :=
  let new_linear := PiSSALinear.construct lora_linear.in_dim
    lora_linear.out_dim lora_linear.rank lora_linear.alpha false false
    to_nf4 freshW freshB freshU freshV
  let new_linear := if lora_linear.weight_meta then new_linear
    else { new_linear with weight := lora_linear.weight }
  let new_linear := if lora_linear.u_meta then new_linear
    else { new_linear with pissa_u := lora_linear.pissa_u }
  let new_linear := if lora_linear.v_meta then new_linear
    else { new_linear with pissa_v := lora_linear.pissa_v }
  new_linear

/-- C3: immediately after construction of a `PiSSALinear` (before
`initialize_pissa` is ever called), `pissa_s` is exactly the zero vector,
and for every input `x` the forward output equals the base transform's
output, for any quantized-matmul primitive and any dropout realization,
regardless of the values written into `pissa_u` and `pissa_v`. -/
theorem constructed_s_zero_and_forward_is_base
    (in_dim out_dim rank : ℕ) (alpha : ℚ) (use_bias quantize_base : Bool)
    (to_nf4 : Mat → Mat) (linW : Mat) (linB : Vec) (uInit vInit : Mat)
    (linear_nf4 : Vec → Mat → Vec) (dropoutF : Vec → Vec) (x : Vec) :
    (PiSSALinear.construct in_dim out_dim rank alpha use_bias quantize_base
        to_nf4 linW linB uInit vInit).pissa_s = (fun _ => 0) ∧
    PiSSALinear.forward linear_nf4 dropoutF
        (PiSSALinear.construct in_dim out_dim rank alpha use_bias
          quantize_base to_nf4 linW linB uInit vInit) x
      = (PiSSALinear.construct in_dim out_dim rank alpha use_bias
          quantize_base to_nf4 linW linB uInit vInit).baseOut linear_nf4 x := by
  refine ⟨rfl, ?_⟩
  funext i
  simp [PiSSALinear.forward, PiSSALinear.construct, mulVec]

/-- C4: when `disabled` is true, the forward pass of both `PiSSALinear` and
`QATPiSSALinear` returns exactly the base-transform-only output, for every
input, every parameter state, every fake quantizer and every dropout
realization. -/
theorem disabled_forward_is_base (L : PiSSALinear)
    (linear_nf4 : Vec → Mat → Vec) (aq : Vec → Vec) (wq : Mat → Mat)
    (dropoutF : Vec → Vec) (x : Vec) (h : L.disabled = true) :
    PiSSALinear.forward linear_nf4 dropoutF L x = L.baseOut linear_nf4 x ∧
    QATPiSSALinear.forward aq wq dropoutF L x
      = mulVec L.in_dim (wq L.weight) (aq x) := by
  constructor <;> simp [PiSSALinear.forward, QATPiSSALinear.forward, h]

/-- Concrete layer used to witness the `disabled` theorem. -/
def Ldis : PiSSALinear :=
  { in_dim := 1, out_dim := 1, rank := 1, alpha := 1, use_bias := false
    _quantize_base := false, weight := fun _ _ => 1, bias := none
    pissa_u := fun _ _ => 1, pissa_s := fun _ => 1, pissa_v := fun _ _ => 1
    disabled := true
    weight_meta := false, u_meta := false, s_meta := false, v_meta := false }

/-- Witness for C4 at a concrete disabled layer. -/
theorem disabled_forward_is_base_witness :
    PiSSALinear.forward (fun x _ => x) id Ldis (fun _ => 1)
        = Ldis.baseOut (fun x _ => x) (fun _ => 1) ∧
    QATPiSSALinear.forward id id id Ldis (fun _ => 1)
        = mulVec Ldis.in_dim (id Ldis.weight) (id (fun _ => 1)) :=
  disabled_forward_is_base Ldis (fun x _ => x) id id id (fun _ => 1) rfl

/-- C9: a `QATPiSSALinear` whose two fake quantizers are the identity (both
configs `None`) computes exactly the same forward output as a `PiSSALinear`
with `use_bias = False` and `quantize_base = False` holding the same
parameters, for every input and dropout realization. -/
theorem qat_identity_quantizers_match_plain (L : PiSSALinear)
    (linear_nf4 : Vec → Mat → Vec) (dropoutF : Vec → Vec) (x : Vec)
    (hq : L._quantize_base = false) (hb : L.bias = none) :
    QATPiSSALinear.forward id id dropoutF L x
      = PiSSALinear.forward linear_nf4 dropoutF L x := by
  have hbase : L.baseOut linear_nf4 x = mulVec L.in_dim L.weight x := by
    funext i
    simp [PiSSALinear.baseOut, hq, hb]
  simp [QATPiSSALinear.forward, PiSSALinear.forward, hbase]

/-- Concrete unquantized bias-free layer used to witness C9. -/
def Lplain : PiSSALinear :=
  { in_dim := 2, out_dim := 2, rank := 1, alpha := 4, use_bias := false
    _quantize_base := false, weight := fun _ _ => 1, bias := none
    pissa_u := fun _ _ => 1, pissa_s := fun _ => 1, pissa_v := fun _ _ => 1
    disabled := false
    weight_meta := false, u_meta := false, s_meta := false, v_meta := false }

/-- Witness for C9 at a concrete layer. -/
theorem qat_identity_quantizers_match_plain_witness :
    QATPiSSALinear.forward id id id Lplain (fun _ => 1)
      = PiSSALinear.forward (fun x _ => x) id Lplain (fun _ => 1) :=
  qat_identity_quantizers_match_plain Lplain (fun x _ => x) id
    (fun _ => 1) rfl rfl

/-- C10: the `QATPiSSALinear` returned by `from_lora_linear` has `pissa_s`
equal to the freshly zero-initialized vector no matter what the source's
`pissa_s` holds, while `weight`, `pissa_u.weight` and `pissa_v.weight` are
carried over from the source exactly when the source tensor is not on the
meta device (and are the fresh initialization otherwise). -/
theorem from_lora_linear_never_copies_s (src : PiSSALinear)
    (to_nf4 : Mat → Mat) (freshW : Mat) (freshB : Vec)
    (freshU freshV : Mat) :
    (QATPiSSALinear.from_lora_linear src to_nf4 freshW freshB freshU
        freshV).pissa_s = (fun _ => 0) ∧
    (QATPiSSALinear.from_lora_linear src to_nf4 freshW freshB freshU
        freshV).weight = (if src.weight_meta then freshW else src.weight) ∧
    (QATPiSSALinear.from_lora_linear src to_nf4 freshW freshB freshU
        freshV).pissa_u = (if src.u_meta then freshU else src.pissa_u) ∧
    (QATPiSSALinear.from_lora_linear src to_nf4 freshW freshB freshU
        freshV).pissa_v = (if src.v_meta then freshV else src.pissa_v) := by
  cases hw : src.weight_meta <;> cases hu : src.u_meta <;>
    cases hv : src.v_meta <;>
      simp [QATPiSSALinear.from_lora_linear, PiSSALinear.construct, hw, hu, hv]

/-- Helper: when no check can fire, `PiSSALinear.constructCheck` succeeds. -/
theorem constructCheck_eq_ok (in_dim out_dim rank : ℤ) (alpha dropout : ℚ)
    (use_bias quantize_base : Bool) (qkwargs : List Bool)
    (hq : (!quantize_base && qkwargs.any id) = false)
    (hin : 0 ≤ in_dim) (hout : 0 ≤ out_dim) (hrank : 0 ≤ rank)
    (hdrop : dropout ≤ 1) :
    PiSSALinear.constructCheck in_dim out_dim rank alpha dropout use_bias
      quantize_base qkwargs = .ok () := by
  unfold PiSSALinear.constructCheck
  rw [if_neg (by simp [hq]), if_neg (by omega),
    if_neg (by rintro ⟨hp, hc | hc⟩ <;> linarith), if_neg (by omega)]

/-- C5: with `quantize_base = False` (and otherwise legal arguments),
construction raises the quantization-arguments error exactly when at least
one supplied quantization keyword value is truthy, and succeeds when all
supplied values are falsy. -/
theorem quantize_base_false_kwargs_validation (in_dim out_dim rank : ℤ)
    (alpha dropout : ℚ) (use_bias : Bool) (qkwargs : List Bool)
    (hin : 0 ≤ in_dim) (hout : 0 ≤ out_dim) (hrank : 0 ≤ rank)
    (hdrop : dropout ≤ 1) :
    (qkwargs.any id = true →
      PiSSALinear.constructCheck in_dim out_dim rank alpha dropout use_bias
          false qkwargs
        = .error "quantize_base is False, but received quantization arguments") ∧
    (qkwargs.any id = false →
      PiSSALinear.constructCheck in_dim out_dim rank alpha dropout use_bias
          false qkwargs = .ok ()) := by
  constructor
  · intro h
    unfold PiSSALinear.constructCheck
    rw [if_pos (by simp [h])]
  · intro h
    exact constructCheck_eq_ok in_dim out_dim rank alpha dropout use_bias
      false qkwargs (by simp [h]) hin hout hrank hdrop

/-- Witness for C5 at concrete arguments, in both directions. -/
theorem quantize_base_false_kwargs_validation_witness :
    (PiSSALinear.constructCheck 1 1 1 1 0 false false [true]
        = .error "quantize_base is False, but received quantization arguments") ∧
    PiSSALinear.constructCheck 1 1 1 1 0 false false [false] = .ok () :=
  ⟨(quantize_base_false_kwargs_validation 1 1 1 1 0 false [true]
      (by norm_num) (by norm_num) (by norm_num) (by norm_num)).1 (by decide),
   (quantize_base_false_kwargs_validation 1 1 1 1 0 false [false]
      (by norm_num) (by norm_num) (by norm_num) (by norm_num)).2 (by decide)⟩

/-- C6: constructing a `QATPiSSALinear` (with otherwise legal arguments)
whose weight config carries a group size `g > 0` fails with the
divisibility error exactly when `g` does not divide `in_dim`, and a weight
config without a group size, or no weight config at all, passes this
check. -/
theorem qat_group_size_validation (in_dim out_dim rank : ℤ)
    (alpha dropout : ℚ) (g : ℤ)
    (hin : 0 ≤ in_dim) (hout : 0 ≤ out_dim) (hrank : 0 ≤ rank)
    (hdrop : dropout ≤ 1) (hg : 0 < g) :
    (QATPiSSALinear.constructCheck in_dim out_dim rank alpha dropout
        (some (some g)) = .ok () ↔ g ∣ in_dim) ∧
    (¬ g ∣ in_dim →
      QATPiSSALinear.constructCheck in_dim out_dim rank alpha dropout
        (some (some g)) = .error "in_dim must be divisible by group_size") ∧
    QATPiSSALinear.constructCheck in_dim out_dim rank alpha dropout
        (some none) = .ok () ∧
    QATPiSSALinear.constructCheck in_dim out_dim rank alpha dropout
        none = .ok () := by
  have hparent : PiSSALinear.constructCheck in_dim out_dim rank alpha dropout
      false false [] = .ok () :=
    constructCheck_eq_ok in_dim out_dim rank alpha dropout false false []
      (by decide) hin hout hrank hdrop
  unfold QATPiSSALinear.constructCheck
  rw [hparent]
  dsimp only
  refine ⟨?_, ?_, rfl, rfl⟩
  · rw [Int.dvd_iff_emod_eq_zero]
    constructor
    · intro h
      by_contra hne
      rw [if_pos hne] at h
      exact absurd h (by simp)
    · intro h
      rw [if_neg (by simp [h])]
  · intro h
    rw [Int.dvd_iff_emod_eq_zero] at h
    rw [if_pos h]

/-- Witness for C6 at concrete arguments: group size 2 divides 4; group
size 3 does not. -/
theorem qat_group_size_validation_witness :
    (QATPiSSALinear.constructCheck 4 1 1 1 0 (some (some 2)) = .ok ()
        ↔ (2 : ℤ) ∣ 4) ∧
    (¬ (3 : ℤ) ∣ 4 →
      QATPiSSALinear.constructCheck 4 1 1 1 0 (some (some 3))
        = .error "in_dim must be divisible by group_size") ∧
    QATPiSSALinear.constructCheck 4 1 1 1 0 (some none) = .ok () ∧
    QATPiSSALinear.constructCheck 4 1 1 1 0 none = .ok () :=
  ⟨(qat_group_size_validation 4 1 1 1 0 2 (by norm_num) (by norm_num)
      (by norm_num) (by norm_num) (by norm_num)).1,
   (qat_group_size_validation 4 1 1 1 0 3 (by norm_num) (by norm_num)
      (by norm_num) (by norm_num) (by norm_num)).2.1,
   (qat_group_size_validation 4 1 1 1 0 2 (by norm_num) (by norm_num)
      (by norm_num) (by norm_num) (by norm_num)).2.2.1,
   (qat_group_size_validation 4 1 1 1 0 2 (by norm_num) (by norm_num)
      (by norm_num) (by norm_num) (by norm_num)).2.2.2⟩

/-- C7: when any of the four tensors `weight`, `pissa_u.weight`, `pissa_s`,
`pissa_v.weight` is still on the meta device, `initialize_pissa` raises the
meta-device error (for any SVD primitives and any `fsvd_niter`), and the
layer state is exactly as before the call. -/
theorem meta_device_aborts_initialize (L : PiSSALinear)
    (svd : Mat → Mat × Vec × Mat) (svd_lowrank : ℤ → Mat → Mat × Vec × Mat)
    (fsvd_niter : Option ℤ)
    (h : (L.weight_meta || L.u_meta || L.s_meta || L.v_meta) = true) :
    L.initialize_pissa svd svd_lowrank fsvd_niter
      = .error "Cannot initialize PiSSA if base or LoRA parameters are still on meta device." ∧
    L.initialize_pissa_run svd svd_lowrank fsvd_niter = L := by
  have he : L.initialize_pissa svd svd_lowrank fsvd_niter
      = .error "Cannot initialize PiSSA if base or LoRA parameters are still on meta device." := by
    unfold PiSSALinear.initialize_pissa
    rw [if_pos h]
  exact ⟨he, by unfold PiSSALinear.initialize_pissa_run; rw [he]⟩

/-- Concrete layer on the meta device used to witness C7. -/
def Lmeta : PiSSALinear :=
  { in_dim := 1, out_dim := 1, rank := 1, alpha := 1, use_bias := false
    _quantize_base := false, weight := fun _ _ => 1, bias := none
    pissa_u := fun _ _ => 1, pissa_s := fun _ => 0, pissa_v := fun _ _ => 1
    disabled := false
    weight_meta := true, u_meta := false, s_meta := false, v_meta := false }

/-- Witness for C7 at a concrete meta-device layer. -/
theorem meta_device_aborts_initialize_witness :
    Lmeta.initialize_pissa (fun W => (W, fun _ => 0, W)) (fun _ W => (W, fun _ => 0, W)) none
      = .error "Cannot initialize PiSSA if base or LoRA parameters are still on meta device." ∧
    Lmeta.initialize_pissa_run (fun W => (W, fun _ => 0, W)) (fun _ W => (W, fun _ => 0, W)) none
      = Lmeta :=
  meta_device_aborts_initialize Lmeta (fun W => (W, fun _ => 0, W))
    (fun _ W => (W, fun _ => 0, W)) none rfl

/-- C8 counterexample: construction with `in_dim = 0`, `rank = 0`,
`alpha = -1` and `dropout = -1/2` succeeds, although the claim demands a
construction failure for non-positive `in_dim`, non-positive `rank`,
non-positive `alpha`, and `dropout` outside [0, 1). -/
theorem constructCheck_accepts_unvalidated_params :
    PiSSALinear.constructCheck 0 1 0 (-1) (-(1 / 2)) false false [] = .ok () :=
  constructCheck_eq_ok 0 1 0 (-1) (-(1 / 2)) false false [] (by decide)
    (by norm_num) (by norm_num) (by norm_num) (by norm_num)

/-- C8 amended: only the quantization-kwargs check is explicit; the other
constraints are side effects of tensor allocation.  With `quantize_base =
False` and no quantization kwargs, construction succeeds exactly when
`in_dim ≥ 0`, `out_dim ≥ 0`, `rank ≥ 0` and `dropout ≤ 1`; `alpha` is never
validated, zero dimensions and zero rank are accepted, and negative dropout
and `dropout = 1` are accepted. -/
theorem constructCheck_ok_characterization (in_dim out_dim rank : ℤ)
    (alpha dropout : ℚ) (use_bias : Bool) :
    PiSSALinear.constructCheck in_dim out_dim rank alpha dropout use_bias
        false [] = .ok ()
      ↔ (0 ≤ in_dim ∧ 0 ≤ out_dim ∧ 0 ≤ rank ∧ dropout ≤ 1) := by
  constructor
  · intro h
    unfold PiSSALinear.constructCheck at h
    split_ifs at h with h1 h2 h3 h4
    push_neg at h2
    have hd : dropout ≤ 1 := by
      by_contra hd
      exact h3 ⟨by linarith, Or.inr (by linarith)⟩
    exact ⟨by omega, by omega, by omega, hd⟩
  · rintro ⟨hi, ho, hr, hd⟩
    exact constructCheck_eq_ok in_dim out_dim rank alpha dropout use_bias
      false [] (by decide) hi ho hr hd

/-- The 1-by-1 base weight of the C1 failing input. -/
def Wone : Mat := fun _ _ => 1

/-- Exact-SVD primitive at `Wone`: `V = [[1]]`, `S = [1]`, `Uh = [[1]]`, a
genuine full singular value decomposition of the 1-by-1 matrix `[[1]]` with
orthonormal factors and nonnegative singular values. -/
def svdOne : Mat → Mat × Vec × Mat :=
  fun _ => (fun _ _ => 1, fun _ => 1, fun _ _ => 1)

/-- Randomized-SVD primitive for `Wone` (unused on the exact path). -/
def lowrankOne : ℤ → Mat → Mat × Vec × Mat :=
  fun _ _ => (fun _ _ => 1, fun _ => 1, fun _ _ => 1)

/-- The C1 failing input: `in_dim = out_dim = 1`, `rank = 1 = min(out_dim,
in_dim)`, `alpha = 2`, base weight `Wone`, freshly constructed adapters. -/
def Lone : PiSSALinear :=
  { in_dim := 1, out_dim := 1, rank := 1, alpha := 2, use_bias := false
    _quantize_base := false, weight := Wone, bias := none
    pissa_u := fun _ _ => 0, pissa_s := fun _ => 0, pissa_v := fun _ _ => 0
    disabled := false
    weight_meta := false, u_meta := false, s_meta := false, v_meta := false }

/-- C1 (code divergence): after the exact-SVD path of `initialize_pissa` on
`Lone` (rank = min(out_dim, in_dim), alpha = 2), the residual weight is 1/2
and the stored singular value is 1/2, so the layer's total transform maps
the all-ones input to 3/2 while the original weight maps it to 1: because
the residual is computed with the already-rescaled singular values, base +
adapter reconstructs the original weight only when alpha = rank. -/
theorem exact_svd_reconstruction_diverges :
    (Lone.initialize_pissa_run svdOne lowrankOne none).weight 0 0 = 1 / 2 ∧
    (Lone.initialize_pissa_run svdOne lowrankOne none).pissa_s 0 = 1 / 2 ∧
    PiSSALinear.forward (fun x _ => x) id
        (Lone.initialize_pissa_run svdOne lowrankOne none) (fun _ => 1) 0
      = 3 / 2 ∧
    mulVec 1 Wone (fun _ => 1) 0 = 1 ∧
    PiSSALinear.forward (fun x _ => x) id
        (Lone.initialize_pissa_run svdOne lowrankOne none) (fun _ => 1) 0
      ≠ mulVec 1 Wone (fun _ => 1) 0 := by
  norm_num [PiSSALinear.forward, PiSSALinear.baseOut,
    PiSSALinear.initialize_pissa_run, PiSSALinear.initialize_pissa, Lone,
    svdOne, lowrankOne, Wone, matMul, diagMat, mulVec, transpose,
    Finset.sum_range_one]

/-- The C2 failing input with a bias: `use_bias = True`, bias present. -/
def Lbias : PiSSALinear :=
  { in_dim := 1, out_dim := 1, rank := 1, alpha := 1, use_bias := true
    _quantize_base := false, weight := fun _ _ => 2, bias := some (fun _ => 1)
    pissa_u := fun _ _ => 3, pissa_s := fun _ => 0, pissa_v := fun _ _ => 4
    disabled := false
    weight_meta := false, u_meta := false, s_meta := false, v_meta := false }

/-- The C2 failing input with a quantized base: `quantize_base = True`. -/
def Lqb : PiSSALinear :=
  { in_dim := 1, out_dim := 1, rank := 1, alpha := 1, use_bias := false
    _quantize_base := true, weight := fun _ _ => 2, bias := none
    pissa_u := fun _ _ => 3, pissa_s := fun _ => 0, pissa_v := fun _ _ => 4
    disabled := false
    weight_meta := false, u_meta := false, s_meta := false, v_meta := false }

/-- C2 (code divergence): `from_lora_linear` on a source with a bias, and
on a source with `quantize_base` set, returns a fully constructed variant
instance with the source weights aliased in, instead of raising: the
`ValueError(...)` expressions on source lines 327 and 329 are built but
never raised. -/
theorem from_lora_linear_returns_despite_bias_or_quantize :
    (QATPiSSALinear.from_lora_linear Lbias id (fun _ _ => 0) (fun _ => 0)
        (fun _ _ => 0) (fun _ _ => 0)).in_dim = Lbias.in_dim ∧
    (QATPiSSALinear.from_lora_linear Lbias id (fun _ _ => 0) (fun _ => 0)
        (fun _ _ => 0) (fun _ _ => 0)).use_bias = false ∧
    (QATPiSSALinear.from_lora_linear Lbias id (fun _ _ => 0) (fun _ => 0)
        (fun _ _ => 0) (fun _ _ => 0)).bias = none ∧
    (QATPiSSALinear.from_lora_linear Lbias id (fun _ _ => 0) (fun _ => 0)
        (fun _ _ => 0) (fun _ _ => 0)).weight 0 0 = Lbias.weight 0 0 ∧
    (QATPiSSALinear.from_lora_linear Lqb id (fun _ _ => 0) (fun _ => 0)
        (fun _ _ => 0) (fun _ _ => 0)).in_dim = Lqb.in_dim ∧
    (QATPiSSALinear.from_lora_linear Lqb id (fun _ _ => 0) (fun _ => 0)
        (fun _ _ => 0) (fun _ _ => 0))._quantize_base = false ∧
    (QATPiSSALinear.from_lora_linear Lqb id (fun _ _ => 0) (fun _ => 0)
        (fun _ _ => 0) (fun _ _ => 0)).weight 0 0 = Lqb.weight 0 0 :=
  ⟨rfl, rfl, rfl, rfl, rfl, rfl, rfl⟩
